import Mathlib

/-!
Verification of the ts-logger-module logging facility: a shallow embedding of
its configuration manager (`config.ts`), rotating file writer and throttled
error-notification trigger (`fileService.ts` and the daily-rotation variant),
and the SMTP notification channel (`emailService.ts`), together with theorems
settling the specification's claims about formatting, rotation, retention,
throttling, and failure handling.

Conventions of the embedding:
* JavaScript `Date` objects are modelled by `JSDate`, whose fields mirror the
  accessors used by the source (`getDate`, `getMonth` (0-based), `getFullYear`,
  `getHours`, `getMinutes`, `getSeconds`); `Date.now()` instants are `Int`
  epoch milliseconds.
* Fallible filesystem and mail primitives are modelled with `Except` plus a
  behaviour oracle deciding which primitive calls succeed; the source's
  `try`/`catch` blocks become explicit `match`es on the `Except` value.
* The log directory is modelled as a flat list of files keyed by filename;
  the constant `Config.directory` path prefix that the source joins onto every
  filename is elided, since every access goes through the same join.
-/

/-- Model of JavaScript `String.prototype.endsWith` on character sequences. -/
def strEndsWith (s suf : String) : Bool :=
  List.isSuffixOf suf.data s.data

/-- Model of JavaScript `String.prototype.toLowerCase` (ASCII). -/
def strToLower (s : String) : String :=
  String.mk (s.data.map Char.toLower)

/-- Model of `num.toString().padStart(2, '0')` from `getFormattedDate`. -/
def pad (num : Nat) : String :=
  let s := toString num
  if s.length < 2 then String.mk (List.replicate (2 - s.length) '0') ++ s else s

/-- Model of `path.join(a, b)` for the two-argument uses in the source. -/
def joinPath (a b : String) : String := a ++ "/" ++ b

/-- A JavaScript `Date`, restricted to the accessors the source uses.
`month` is 0-based, exactly as `getMonth()` returns it. -/
structure JSDate where
  day : Nat
  month : Nat
  year : Nat
  hours : Nat
  minutes : Nat
  seconds : Nat
deriving DecidableEq

/-- `FileService.getFormattedDate`: `DD/MM/YYYY HH:mm:ss` with two-digit
zero-padded fields (month shifted to 1-based, year unpadded). -/
def FileService.getFormattedDate (date : JSDate) : String :=
  pad date.day ++ "/" ++ pad (date.month + 1) ++ "/" ++ toString date.year ++ " " ++
    pad date.hours ++ ":" ++ pad date.minutes ++ ":" ++ pad date.seconds

/-- The event line built in `FileService.log`:
`[clientName] [formattedDate] [level] [code] [module]: text\n`. -/
def logLine (clientName : String) (date : JSDate)
    (level code module text : String) : String :=
  "[" ++ clientName ++ "] [" ++ FileService.getFormattedDate date ++ "] [" ++ level ++
    "] [" ++ code ++ "] [" ++ module ++ "]: " ++ text ++ "\n"

/-- The banner appended on (re)initialization: a blank line, a 50-character
separator rule, a blank line, then the initialization marker line. -/
def bannerContent (clientName : String) (date : JSDate) : String :=
  "\n" ++ String.mk (List.replicate 50 '_') ++ "\n\n" ++
    "[" ++ clientName ++ "] [" ++ FileService.getFormattedDate date ++
    "] Logger successfully initialized.\n"

/-- Diagnostics the source emits on its console side channel (`console.warn`
and `console.error` calls); only their identity matters to the claims. -/
inductive Diag
  | warnNotInitialized
  | errorWriteFail
  | errorSendFail
  | errorSendNotConfigured
  | errorRotationCheckFail
  | errorCleanupFail
deriving DecidableEq

/-- Faults a filesystem or mail primitive can raise. -/
inductive IoError
  | mkdirFailed
  | appendFailed
  | unlinkFailed
  | readdirFailed
  | sendFailed
deriving DecidableEq

/-- Contents of the log directory as an association of filename to file
content, for the writer variant that never consults modification times. -/
abbrev FsState := List (String × String)

/-- Append `content` to the file at `path`, creating it if absent (the
behaviour of a successful `fs.appendFileSync`). -/
def fsAppend : FsState → String → String → FsState
  | [], path, content => [(path, content)]
  | (p, c) :: rest, path, content =>
    if p = path then (p, c ++ content) :: rest
    else (p, c) :: fsAppend rest path content

/-- Oracle deciding which filesystem primitive calls succeed. -/
structure FsBehavior where
  appendOk : String → Bool

/-- `fs.appendFileSync`: appends on success, raises on failure. -/
def appendFileSync (beh : FsBehavior) (fsys : FsState) (path content : String) :
    Except IoError FsState :=
  if beh.appendOk path then .ok (fsAppend fsys path content) else .error .appendFailed

/-- The behaviour in which every filesystem call succeeds. -/
def behAllOk : FsBehavior := ⟨fun _ => true⟩

/-- The mutable fields of `FileService`: `_filename`, `_initialized`,
`_lastEmailSent`. -/
structure LogState where
  filename : String
  initialized : Bool
  lastEmailSent : Int
deriving DecidableEq

/-- The configuration and mailer facts `FileService.error` consults:
`Config.smtpEnabled`, `Mailer.isReady`, and `Config.throttle`. -/
structure NotifyEnv where
  smtpEnabled : Bool
  mailerReady : Bool
  throttle : Int
deriving DecidableEq

/-- Outcome of the notification segment of one `error` call: the new value of
`_lastEmailSent` and whether `Mailer.sendErrorMail` was invoked. -/
structure NotifyResult where
  lastEmailSent : Int
  attempted : Bool
deriving DecidableEq

/-- The gate condition in `FileService.error`:
`now - this._lastEmailSent >= Config.throttle`. -/
def FileService.shouldAttempt (throttle lastEmailSent now : Int) : Bool :=
  now - lastEmailSent ≥ throttle

/-- The notification segment of `FileService.error` (everything after the
`this.log` call): return early if SMTP is disabled; otherwise, when the gate
passes, record `_lastEmailSent = now` and invoke the mailer if it is ready. -/
def FileService.errorNotify (env : NotifyEnv) (lastEmailSent now : Int) : NotifyResult :=
  if !env.smtpEnabled then ⟨lastEmailSent, false⟩
  else if FileService.shouldAttempt env.throttle lastEmailSent now then
    ⟨now, env.mailerReady⟩
  else ⟨lastEmailSent, false⟩

/-- Run a sequence of `error`-call notification segments at the given
`Date.now()` instants, returning the final `_lastEmailSent` and the number of
notification attempts initiated. -/
def FileService.runErrorNotify (env : NotifyEnv) (init : Int) (times : List Int) : Int × Nat :=
  times.foldl
    (fun acc now =>
      let r := FileService.errorNotify env acc.1 now
      (r.lastEmailSent, acc.2 + (if r.attempted then 1 else 0)))
    (init, 0)

/-- `transporter.sendMail`, reduced to its success or failure. -/
def transporterSendMail (sendOk : Bool) : Except IoError Unit :=
  if sendOk then .ok () else .error .sendFailed

/-- `EmailService.sendErrorMail`: reports a diagnostic and returns when the
transport is not configured; otherwise tries the delivery, catching a failure
into a diagnostic. It never raises across its boundary. -/
def EmailService.sendErrorMail (ready sendOk : Bool) : Except IoError (List Diag) :=
  if !ready then .ok [.errorSendNotConfigured]
  else
    match transporterSendMail sendOk with
    | .ok _ => .ok []
    | .error _ => .ok [.errorSendFail]

/-- `FileService.log`: warn and return when uninitialized; otherwise build the
event line and append it, catching an append failure into a diagnostic. The
`Except` layer is the channel through which an uncaught fault would reach the
caller. -/
def FileService.log (beh : FsBehavior) (st : LogState) (fsys : FsState)
    (clientName : String) (date : JSDate) (level code module text : String) :
    Except IoError (FsState × List Diag) :=
  if !st.initialized then .ok (fsys, [.warnNotInitialized])
  else
    match appendFileSync beh fsys st.filename (logLine clientName date level code module text) with
    | .ok fs2 => .ok (fs2, [])
    | .error _ => .ok (fsys, [.errorWriteFail])

/-- `FileService.info`. -/
def FileService.info (beh : FsBehavior) (st : LogState) (fsys : FsState)
    (clientName : String) (date : JSDate) (code module text : String) :
    Except IoError (FsState × List Diag) :=
  FileService.log beh st fsys clientName date "INFO" code module text

/-- `FileService.warn`. -/
def FileService.warn (beh : FsBehavior) (st : LogState) (fsys : FsState)
    (clientName : String) (date : JSDate) (code module text : String) :
    Except IoError (FsState × List Diag) :=
  FileService.log beh st fsys clientName date "WARN" code module text

/-- `FileService.debug`. -/
def FileService.debug (beh : FsBehavior) (st : LogState) (fsys : FsState)
    (clientName : String) (date : JSDate) (code module text : String) :
    Except IoError (FsState × List Diag) :=
  FileService.log beh st fsys clientName date "DEBUG" code module text

/-- `FileService.error`: log at `ERROR` level, then run the notification
segment; when the gate passed and the mailer was ready, invoke
`sendErrorMail`, whose rejection is caught into a diagnostic (`.catch`). The
result carries the updated state, filesystem, diagnostics, and whether a
notification attempt was initiated. -/
def FileService.error (beh : FsBehavior) (env : NotifyEnv) (sendOk : Bool)
    (st : LogState) (fsys : FsState) (clientName : String) (date : JSDate)
    (now : Int) (code module text : String) :
    Except IoError (LogState × FsState × List Diag × Bool) :=
  match FileService.log beh st fsys clientName date "ERROR" code module text with
  | .error e => .error e
  | .ok (fs2, d1) =>
    let r := FileService.errorNotify env st.lastEmailSent now
    if r.attempted then
      match EmailService.sendErrorMail env.mailerReady sendOk with
      | .ok d2 => .ok ({ st with lastEmailSent := r.lastEmailSent }, fs2, d1 ++ d2, r.attempted)
      | .error _ =>
        .ok ({ st with lastEmailSent := r.lastEmailSent }, fs2, d1 ++ [.errorSendFail], r.attempted)
    else .ok ({ st with lastEmailSent := r.lastEmailSent }, fs2, d1, r.attempted)

/-- A directory entry as `rotateLogFiles` sees it: a filename and the
modification time from `fs.statSync(...).mtime.getTime()`. -/
structure LogFile where
  name : String
  mtime : Int
deriving DecidableEq

/-- The comparator `(a, b) => b.mtime - a.mtime` passed to `.sort`, as the
Boolean order it induces: descending modification time. -/
def fileLe (a b : LogFile) : Bool := b.mtime ≤ a.mtime

/-- `FileService.rotateLogFiles` (the retention pass): list the directory
(caught as a no-op on listing/stat failure), keep the files whose lowercased
name ends in `.txt`, sort them by modification time descending, and when the
count exceeds `Config.maxFilecount` attempt to delete each file past that
limit; `unlinkOk` says which individual deletions succeed, a failed one being
caught and left in place. -/
def FileService.rotateLogFiles (maxFilecount : Nat) (listingOk : Bool)
    (unlinkOk : LogFile → Bool) (files : List LogFile) : List LogFile :=
  if !listingOk then files
  else
    let logFiles := (files.filter fun f => strEndsWith (strToLower f.name) ".txt").mergeSort fileLe
    if logFiles.length > maxFilecount then
      let filesToDelete := logFiles.drop maxFilecount
      files.filter fun f => !(decide (f ∈ filesToDelete) && unlinkOk f)
    else files

/-- A directory entry for the daily-rotation writer variant: filename, file
content, and modification time. -/
structure DirFile where
  name : String
  content : String
  mtime : Int
deriving DecidableEq

/-- The log directory for the daily-rotation writer variant. -/
abbrev DirState := List DirFile

/-- The mutable fields of the daily-rotation `FileService`: `_filename`,
`_initialized`, `_currentDay`, `_lastEmailSent`. -/
structure DailyState where
  filename : String
  initialized : Bool
  currentDay : Nat
  lastEmailSent : Int
deriving DecidableEq

/-- Oracle deciding which filesystem primitive calls succeed for the
daily-rotation writer. -/
structure DailyBehavior where
  mkdirOk : Bool
  appendOk : String → Bool
  listingOk : Bool
  unlinkOk : String → Bool

/-- Append `content` to the file named `path`, creating it if absent and
stamping its modification time with the current instant. -/
def dirAppend : DirState → String → String → Int → DirState
  | [], path, content, nowMs => [⟨path, content, nowMs⟩]
  | f :: rest, path, content, nowMs =>
    if f.name = path then ⟨f.name, f.content ++ content, nowMs⟩ :: rest
    else f :: dirAppend rest path content nowMs

/-- `fs.appendFileSync` for the daily-rotation writer. -/
def appendDir (beh : DailyBehavior) (fsys : DirState) (path content : String)
    (nowMs : Int) : Except IoError DirState :=
  if beh.appendOk path then .ok (dirAppend fsys path content nowMs) else .error .appendFailed

/-- The behaviour in which every filesystem call of the daily-rotation writer
succeeds. -/
def dailyBehAllOk : DailyBehavior := ⟨true, fun _ => true, true, fun _ => true⟩

/-- The comparator `(a, b) => b.mtime - a.mtime` over directory entries of the
daily-rotation writer. -/
def dirFileLe (a b : DirFile) : Bool := b.mtime ≤ a.mtime

/-- `formatFilename` of the daily-rotation writer:
`log-<year>-<month+1, 2 digits>-<day, 2 digits>.txt`. Its side assignment
`this._currentDay = now.getDate()` is performed by each caller alongside. -/
def FileServiceDaily.formatFilename (now : JSDate) : String :=
  "log-" ++ toString now.year ++ "-" ++ pad (now.month + 1) ++ "-" ++ pad now.day ++ ".txt"

/-- `rotate` of the daily-rotation writer: the asynchronous retention pass,
same eviction logic as `rotateLogFiles` but filtering on `.txt` without
lowercasing and deleting via `Promise.allSettled`, each deletion caught
independently. -/
def FileServiceDaily.rotate (maxFilecount : Nat) (beh : DailyBehavior)
    (fsys : DirState) : DirState :=
  if !beh.listingOk then fsys
  else
    let logFiles := (fsys.filter fun f => strEndsWith f.name ".txt").mergeSort dirFileLe
    if logFiles.length > maxFilecount then
      let filesToDelete := logFiles.drop maxFilecount
      fsys.filter fun f => !(decide (f ∈ filesToDelete) && beh.unlinkOk f.name)
    else fsys

/-- `checkRotation` of the daily-rotation writer: return unless
`new Date().getDate()` differs from `_currentDay`; otherwise make the
directory, point `_filename` at the current period's file (setting
`_currentDay`), append the banner, and fire the retention pass; any failure in
the `try` is caught into a diagnostic. -/
def FileServiceDaily.checkRotation (beh : DailyBehavior) (clientName : String)
    (maxFilecount : Nat) (st : DailyState) (fsys : DirState) (now : JSDate)
    (nowMs : Int) : DailyState × DirState × List Diag :=
  if now.day = st.currentDay then (st, fsys, [])
  else if !beh.mkdirOk then (st, fsys, [.errorRotationCheckFail])
  else
    let newName := FileServiceDaily.formatFilename now
    let st1 := { st with filename := newName, currentDay := now.day }
    match appendDir beh fsys newName (bannerContent clientName now) nowMs with
    | .ok fs2 => (st1, FileServiceDaily.rotate maxFilecount beh fs2, [])
    | .error _ => (st1, fsys, [.errorRotationCheckFail])

/-- `log` of the daily-rotation writer: warn and return when uninitialized;
otherwise run `checkRotation`, append the event line (failure caught into a
diagnostic), and echo the same line to the console when `Config.console` is
set. The last component lists the strings passed to `console.log`. -/
def FileServiceDaily.log (beh : DailyBehavior) (clientName : String)
    (maxFilecount : Nat) (consoleFlag : Bool) (st : DailyState) (fsys : DirState)
    (now : JSDate) (nowMs : Int) (level code module text : String) :
    DailyState × DirState × List Diag × List String :=
  if !st.initialized then (st, fsys, [.warnNotInitialized], [])
  else
    let mid := FileServiceDaily.checkRotation beh clientName maxFilecount st fsys now nowMs
    let line := logLine clientName now level code module text
    match appendDir beh mid.2.1 mid.1.filename line nowMs with
    | .ok fs2 => (mid.1, fs2, mid.2.2, if consoleFlag then [line] else [])
    | .error _ => (mid.1, mid.2.1, mid.2.2 ++ [.errorWriteFail], [])

/-- The SMTP configuration record built by `LoggerConfigManager.configSMTP`;
`toAddr` and `fromAddr` carry the source's `to` and `from` fields, whose names
are reserved words here. -/
structure SMTPConfig where
  toAddr : String
  fromAddr : String
  host : String
  port : Int
  username : String
  password : String
  secure : Bool
deriving DecidableEq

/-- JavaScript truthiness of an optional environment string: `undefined` and
the empty string are falsy. -/
def isTruthy : Option String → Bool
  | none => false
  | some s => !(s == "")

/-- `LoggerConfigManager.configSMTP`: SMTP is disabled (no config) when any
required environment field is falsy, or when the parsed port is `NaN` or
outside `1..65535`; otherwise the config is built with
`secure = (port === 465)`. `parsedPort` is the result of `parseInt(portStr)`,
with `none` standing for `NaN`. -/
def LoggerConfigManager.configSMTP
    (envTo envFrom envHost envPortStr envUsername envPassword : Option String)
    (parsedPort : Option Int) : Option SMTPConfig :=
  if !(isTruthy envTo && isTruthy envFrom && isTruthy envHost && isTruthy envPortStr &&
      isTruthy envUsername && isTruthy envPassword) then none
  else
    match parsedPort with
    | none => none
    | some port =>
      if port ≤ 0 || port > 65535 then none
      else
        some ⟨envTo.getD "", envFrom.getD "", envHost.getD "", port,
          envUsername.getD "", envPassword.getD "", port == 465⟩

/-- The fields of `LoggerConfigManager` touched by the `clientName` and
`directory` setters. -/
structure ConfigState where
  baseDir : String
  clientName : String
  loggerDirectory : String
deriving DecidableEq

/-- The `clientName` setter: assigns the name and recomputes
`_loggerDirectory = path.join(this.baseDir, this._clientName)`. -/
def LoggerConfigManager.setClientName (st : ConfigState) (name : String) : ConfigState :=
  { st with clientName := name, loggerDirectory := joinPath st.baseDir name }

/-- The `directory` setter: assigns `_loggerDirectory` only. -/
def LoggerConfigManager.setDirectory (st : ConfigState) (dir : String) : ConfigState :=
  { st with loggerDirectory := dir }

/-- The options `EmailService.initSMTP` passes to
`nodemailer.createTransport`, restricted to the security-relevant ones. -/
structure TransportOptions where
  host : String
  port : Int
  secure : Bool
deriving DecidableEq

/-- `EmailService.initSMTP`: refuse when SMTP is disabled or the config is
absent; otherwise construct the transport with the config's host and port and
the literal `secure: true` that appears in the source. Returns the transport
options actually used, `none` when no transport is created. -/
def EmailService.initSMTP (smtpEnabled : Bool) (smtpConfig : Option SMTPConfig) :
    Option TransportOptions :=
  if !smtpEnabled then none
  else
    match smtpConfig with
    | none => none
    | some c => some ⟨c.host, c.port, true⟩

theorem errorNotify_pass (W lastSent now : Int) (mr : Bool) (h : now - lastSent ≥ W) :
    FileService.errorNotify ⟨true, mr, W⟩ lastSent now = ⟨now, mr⟩ := by
  simp [FileService.errorNotify, FileService.shouldAttempt, h]

theorem errorNotify_block (W lastSent now : Int) (mr : Bool) (h : ¬ now - lastSent ≥ W) :
    FileService.errorNotify ⟨true, mr, W⟩ lastSent now = ⟨lastSent, false⟩ := by
  simp [FileService.errorNotify, FileService.shouldAttempt, h]

theorem errorNotify_attempted (env : NotifyEnv) (lastSent now : Int) :
    (FileService.errorNotify env lastSent now).attempted
      = (env.smtpEnabled && FileService.shouldAttempt env.throttle lastSent now
          && env.mailerReady) := by
  obtain ⟨se, mr, th⟩ := env
  cases se
  · simp [FileService.errorNotify]
  · simp only [FileService.errorNotify]
    split_ifs <;> simp_all

/-- C6: the formatted line is
`[clientIdentity] [DD/MM/YYYY HH:mm:ss] [LEVEL] [code] [module]: text` with
day, month, hours, minutes and seconds zero-padded to two digits (and the
line terminated by the newline the writer appends); concretely,
`info("APP_001","Main","Started")` with client identity `Acme` at fixed clock
2025-06-23 14:30:15 appends exactly
`[Acme] [23/06/2025 14:30:15] [INFO] [APP_001] [Main]: Started`. -/
theorem C6_line_format :
    FileService.info behAllOk ⟨"log-2025-jun.txt", true, 0⟩ [] "Acme"
        ⟨23, 5, 2025, 14, 30, 15⟩ "APP_001" "Main" "Started"
      = .ok ([("log-2025-jun.txt",
          "[Acme] [23/06/2025 14:30:15] [INFO] [APP_001] [Main]: Started\n")], []) ∧
    logLine "Acme" ⟨23, 5, 2025, 14, 30, 15⟩ "INFO" "APP_001" "Main" "Started"
      = "[Acme] [23/06/2025 14:30:15] [INFO] [APP_001] [Main]: Started\n" ∧
    (∀ n, n < 100 → (pad n).length = 2) := by
  refine ⟨rfl, rfl, ?_⟩
  decide

/-- C6 witness: the padding clause evaluated at a concrete one-digit field. -/
theorem C6_line_format_witness : 5 < 100 ∧ (pad 5).length = 2 :=
  ⟨by decide, C6_line_format.2.2 5 (by decide)⟩

/-- C10: setting the client identity rewrites the logger directory to the
base directory joined with the new client name, discarding any directory
previously set explicitly; the directory setter changes only the logger
directory and leaves the client name (and base directory) unchanged. -/
theorem C10_setter_frame (st : ConfigState) (d n : String) :
    (LoggerConfigManager.setClientName (LoggerConfigManager.setDirectory st d) n).loggerDirectory
      = joinPath st.baseDir n ∧
    (LoggerConfigManager.setClientName st n).clientName = n ∧
    (LoggerConfigManager.setClientName st n).loggerDirectory = joinPath st.baseDir n ∧
    LoggerConfigManager.setDirectory st d = { st with loggerDirectory := d } ∧
    (LoggerConfigManager.setDirectory st d).clientName = st.clientName := by
  exact ⟨rfl, rfl, rfl, rfl, rfl⟩

/-- C8 counterexample: with a valid non-465 port (587) the derived `secure`
flag is `false`, yet the transport is constructed with `secure = true` —
the transport does not use the derived security mode. -/
theorem C8_counterexample :
    ((LoggerConfigManager.configSMTP (some "ops@example.com") (some "logger@example.com")
        (some "smtp.example.com") (some "587") (some "user") (some "pass")
        (some 587)).map SMTPConfig.secure = some false) ∧
    ((EmailService.initSMTP true
        (LoggerConfigManager.configSMTP (some "ops@example.com") (some "logger@example.com")
          (some "smtp.example.com") (some "587") (some "user") (some "pass")
          (some 587))).map TransportOptions.secure = some true) := by
  exact ⟨rfl, rfl⟩

/-- C8 amended: the channel configuration's `secure` flag is derived from the
port (465 yields `true`, any other valid port `false`), but the notification
channel's transport is always constructed with `secure = true`, regardless of
that derived flag. -/
theorem C8_secure_flag_amended
    (envTo envFrom envHost envPortStr envUsername envPassword : Option String)
    (parsedPort : Option Int) (c : SMTPConfig)
    (h : LoggerConfigManager.configSMTP envTo envFrom envHost envPortStr
        envUsername envPassword parsedPort = some c) :
    c.secure = (c.port == 465) ∧
    EmailService.initSMTP true (some c) = some ⟨c.host, c.port, true⟩ := by
  refine ⟨?_, rfl⟩
  unfold LoggerConfigManager.configSMTP at h
  split at h
  · exact Option.noConfusion h
  · split at h
    · exact Option.noConfusion h
    · split at h
      · exact Option.noConfusion h
      · injection h with h2
        subst h2
        rfl

/-- C8 amended witness: the derived config at port 465 and the transport
options built from it. -/
theorem C8_secure_flag_amended_witness :
    LoggerConfigManager.configSMTP (some "ops@example.com") (some "logger@example.com")
        (some "smtp.example.com") (some "465") (some "user") (some "pass") (some 465)
      = some ⟨"ops@example.com", "logger@example.com", "smtp.example.com", 465,
          "user", "pass", true⟩ ∧
    ((⟨"ops@example.com", "logger@example.com", "smtp.example.com", 465,
        "user", "pass", true⟩ : SMTPConfig).secure
      = ((⟨"ops@example.com", "logger@example.com", "smtp.example.com", 465,
          "user", "pass", true⟩ : SMTPConfig).port == 465) ∧
    EmailService.initSMTP true
        (some ⟨"ops@example.com", "logger@example.com", "smtp.example.com", 465,
          "user", "pass", true⟩)
      = some ⟨(⟨"ops@example.com", "logger@example.com", "smtp.example.com", 465,
          "user", "pass", true⟩ : SMTPConfig).host,
          (⟨"ops@example.com", "logger@example.com", "smtp.example.com", 465,
            "user", "pass", true⟩ : SMTPConfig).port, true⟩) :=
  ⟨rfl, C8_secure_flag_amended (some "ops@example.com") (some "logger@example.com")
    (some "smtp.example.com") (some "465") (some "user") (some "pass") (some 465)
    ⟨"ops@example.com", "logger@example.com", "smtp.example.com", 465,
      "user", "pass", true⟩ rfl⟩

/-- C7 counterexample: with SMTP enabled but the mailer not ready, a passing
gate decision updates `_lastEmailSent` (from 0 to 10) although
`sendErrorMail` is never invoked — the throttle state is mutated on the gate
decision alone, not only when an attempt is actually initiated. -/
theorem C7_counterexample :
    (FileService.errorNotify ⟨true, false, 5⟩ 0 10).lastEmailSent = 10 ∧
    (FileService.errorNotify ⟨true, false, 5⟩ 0 10).attempted = false := by
  exact ⟨rfl, rfl⟩

/-- C7 amended: `_lastEmailSent` is assigned exactly when SMTP is enabled and
the gate permits (the check-and-set of the gate decision), regardless of
whether the channel is ready to actually dispatch; it is never changed when
the gate denies or by delivery completion, it is monotonically non-decreasing
for a non-negative throttle window, and whenever an attempt is initiated the
recorded instant is the attempt's instant. -/
theorem C7_throttle_state_amended (env : NotifyEnv) (lastSent now : Int)
    (hW : 0 ≤ env.throttle) :
    (FileService.errorNotify env lastSent now).lastEmailSent
      = (if env.smtpEnabled && FileService.shouldAttempt env.throttle lastSent now
          then now else lastSent) ∧
    lastSent ≤ (FileService.errorNotify env lastSent now).lastEmailSent ∧
    ((FileService.errorNotify env lastSent now).attempted = true →
      (FileService.errorNotify env lastSent now).lastEmailSent = now) := by
  obtain ⟨se, mr, th⟩ := env
  simp only [FileService.errorNotify, FileService.shouldAttempt] at *
  cases se
  · simp
  · simp only [Bool.not_true, Bool.false_eq_true, if_false, Bool.true_and,
      decide_eq_true_eq]
    by_cases h : now - lastSent ≥ th
    · simp only [if_pos h]
      refine ⟨by simp, by omega, by simp⟩
    · simp only [if_neg h]
      refine ⟨by simp, by simp, by simp⟩

/-- C7 amended witness: a ready mailer, window 60000 ms, last sent 0,
call at 1700000000000. -/
theorem C7_throttle_state_amended_witness :
    (0 : Int) ≤ (60000 : Int) ∧
    ((FileService.errorNotify ⟨true, true, 60000⟩ 0 1700000000000).lastEmailSent
      = (if (true : Bool) && FileService.shouldAttempt 60000 0 1700000000000
          then (1700000000000 : Int) else 0) ∧
    (0 : Int) ≤ (FileService.errorNotify ⟨true, true, 60000⟩ 0 1700000000000).lastEmailSent ∧
    ((FileService.errorNotify ⟨true, true, 60000⟩ 0 1700000000000).attempted = true →
      (FileService.errorNotify ⟨true, true, 60000⟩ 0 1700000000000).lastEmailSent
        = 1700000000000)) :=
  ⟨by decide, C7_throttle_state_amended ⟨true, true, 60000⟩ 0 1700000000000 (by decide)⟩

/-- C1 counterexample: the claim's own schedule with `W = 60000` and calls at
`t = 0`, `t = 30000`, `t = 61000` records exactly one attempt, not two: the
never-sent sentinel is the epoch instant 0, so the first call's gate
(`0 - 0 ≥ 60000`) denies even though no prior attempt exists. -/
theorem C1_counterexample :
    (FileService.runErrorNotify ⟨true, true, 60000⟩ 0 [0, 30000, 61000]).2 = 1 ∧
    (FileService.runErrorNotify ⟨true, true, 60000⟩ 0 [0, 30000, 61000]).2 ≠ 2 := by
  exact ⟨rfl, by decide⟩

/-- C1 amended: the gate permits an attempt iff `now - lastSentAt ≥ W`, where
`lastSentAt` is the epoch instant 0 when no prior attempt exists (never-sent
is not special-cased); consequently, for call instants at least `W` past the
epoch — as real `Date.now()` instants are — error calls at times `t` and
`t + (W-1)` trigger exactly one attempt and a third call at `t + W + 1`
triggers a second one. -/
theorem C1_throttle_gate_amended (W t lastSent now : Int) (hW : 1 ≤ W) (ht : W ≤ t) :
    (FileService.shouldAttempt W lastSent now = true ↔ now - lastSent ≥ W) ∧
    (FileService.runErrorNotify ⟨true, true, W⟩ 0 [t, t + (W - 1), t + W + 1]).2 = 2 := by
  constructor
  · simp [FileService.shouldAttempt]
  · have e1 := errorNotify_pass W 0 t true (by omega)
    have e2 := errorNotify_block W t (t + (W - 1)) true (by omega)
    have e3 := errorNotify_pass W t (t + W + 1) true (by omega)
    simp [FileService.runErrorNotify, e1, e2, e3]

/-- C1 amended witness: `W = 60000` and the schedule starting at the concrete
epoch instant 1700000000000. -/
theorem C1_throttle_gate_amended_witness :
    (1 : Int) ≤ (60000 : Int) ∧ (60000 : Int) ≤ (1700000000000 : Int) ∧
    ((FileService.shouldAttempt 60000 0 1700000000000 = true ↔
        (1700000000000 : Int) - 0 ≥ 60000) ∧
    (FileService.runErrorNotify ⟨true, true, 60000⟩ 0
        [1700000000000, 1700000000000 + (60000 - 1), 1700000000000 + 60000 + 1]).2 = 2) :=
  ⟨by decide, by decide,
    C1_throttle_gate_amended 60000 1700000000000 0 1700000000000 (by decide) (by decide)⟩

theorem sendErrorMail_ready (sendOk : Bool) :
    EmailService.sendErrorMail true sendOk
      = .ok (if sendOk then [] else [Diag.errorSendFail]) := by
  cases sendOk <;> rfl

theorem errorNotify_attempted_ready (env : NotifyEnv) (lastSent now : Int)
    (h : (FileService.errorNotify env lastSent now).attempted = true) :
    env.mailerReady = true := by
  rw [errorNotify_attempted] at h
  simp only [Bool.and_eq_true] at h
  exact h.2

theorem FileService.log_spec (beh : FsBehavior) (st : LogState) (fsys : FsState)
    (clientName : String) (date : JSDate) (level code module text : String) :
    FileService.log beh st fsys clientName date level code module text
      = if st.initialized = true then
          (if beh.appendOk st.filename = true then
            .ok (fsAppend fsys st.filename (logLine clientName date level code module text), [])
          else .ok (fsys, [Diag.errorWriteFail]))
        else .ok (fsys, [Diag.warnNotInitialized]) := by
  cases hinit : st.initialized
  · simp [FileService.log, hinit]
  · by_cases happ : beh.appendOk st.filename = true
    · simp [FileService.log, appendFileSync, hinit, happ]
    · simp [FileService.log, appendFileSync, hinit, happ]

theorem FileService.error_eq (beh : FsBehavior) (env : NotifyEnv) (sendOk : Bool)
    (st : LogState) (fsys : FsState) (clientName : String) (date : JSDate)
    (now : Int) (code module text : String) :
    FileService.error beh env sendOk st fsys clientName date now code module text
      = .ok
          ({ st with lastEmailSent := (FileService.errorNotify env st.lastEmailSent now).lastEmailSent },
           (if st.initialized = true then
              (if beh.appendOk st.filename = true then
                fsAppend fsys st.filename (logLine clientName date "ERROR" code module text)
              else fsys)
            else fsys),
           (if st.initialized = true then
              (if beh.appendOk st.filename = true then ([] : List Diag)
               else [Diag.errorWriteFail])
            else [Diag.warnNotInitialized])
             ++ (if (FileService.errorNotify env st.lastEmailSent now).attempted then
                  (if sendOk then [] else [Diag.errorSendFail])
                 else []),
           (FileService.errorNotify env st.lastEmailSent now).attempted) := by
  unfold FileService.error
  rw [FileService.log_spec]
  cases hatt : (FileService.errorNotify env st.lastEmailSent now).attempted
  · cases hinit : st.initialized
    · simp [hatt]
    · by_cases happ : beh.appendOk st.filename = true
      · simp [hatt, happ]
      · simp [hatt, happ]
  · have hmr : env.mailerReady = true := errorNotify_attempted_ready env st.lastEmailSent now hatt
    rw [hmr, sendErrorMail_ready]
    cases hinit : st.initialized
    · cases sendOk <;> simp [hatt]
    · by_cases happ : beh.appendOk st.filename = true
      · cases sendOk <;> simp [hatt, happ]
      · cases sendOk <;> simp [hatt, happ]

/-- C2: every public log operation (`info`, `warn`, `debug`, `error`) returns
normally for every input and every filesystem/mail failure pattern — the
`Except` fault channel always carries `.ok` — and an append failure is caught
into a diagnostic with the filesystem left unchanged, so the call is a no-op
from the caller's perspective. -/
theorem C2_fail_open (beh : FsBehavior) (env : NotifyEnv) (sendOk : Bool)
    (st : LogState) (fsys : FsState) (clientName : String) (date : JSDate)
    (now : Int) (level code module text : String) :
    (FileService.log beh st fsys clientName date level code module text).isOk = true ∧
    (FileService.info beh st fsys clientName date code module text).isOk = true ∧
    (FileService.warn beh st fsys clientName date code module text).isOk = true ∧
    (FileService.debug beh st fsys clientName date code module text).isOk = true ∧
    (FileService.error beh env sendOk st fsys clientName date now code module text).isOk = true ∧
    (st.initialized = true → beh.appendOk st.filename = false →
      FileService.log beh st fsys clientName date level code module text
        = .ok (fsys, [Diag.errorWriteFail])) := by
  refine ⟨?_, ?_, ?_, ?_, ?_, ?_⟩
  · rw [FileService.log_spec]; split <;> first | rfl | (split <;> rfl)
  · rw [FileService.info, FileService.log_spec]; split <;> first | rfl | (split <;> rfl)
  · rw [FileService.warn, FileService.log_spec]; split <;> first | rfl | (split <;> rfl)
  · rw [FileService.debug, FileService.log_spec]; split <;> first | rfl | (split <;> rfl)
  · rw [FileService.error_eq]; rfl
  · intro hinit happ
    rw [FileService.log_spec]
    simp [hinit, happ]

/-- C2 witness: an always-failing append on an initialized writer. -/
theorem C2_fail_open_witness :
    ((⟨fun _ => false⟩ : FsBehavior).appendOk "log-2025-jun.txt" = false) ∧
    (FileService.log ⟨fun _ => false⟩ ⟨"log-2025-jun.txt", true, 0⟩
        [("log-2025-jun.txt", "")] "Acme" ⟨23, 5, 2025, 14, 30, 15⟩
        "INFO" "APP_001" "Main" "Started"
      = .ok ([("log-2025-jun.txt", "")], [Diag.errorWriteFail])) :=
  ⟨rfl,
    (C2_fail_open ⟨fun _ => false⟩ ⟨true, true, 60000⟩ true
      ⟨"log-2025-jun.txt", true, 0⟩ [("log-2025-jun.txt", "")] "Acme"
      ⟨23, 5, 2025, 14, 30, 15⟩ 1700000000000 "INFO" "APP_001" "Main"
      "Started").2.2.2.2.2 rfl rfl⟩

/-- C4 counterexample: with initialization failed (`_initialized = false`),
SMTP enabled, the mailer ready and the window elapsed, an `error` call writes
nothing and warns — but still initiates a notification attempt (final
component `true`) and updates the throttle state, so the call is not the
complete no-op the claim states. -/
theorem C4_counterexample :
    FileService.error behAllOk ⟨true, true, 60000⟩ true
        ⟨"log-2025-jun.txt", false, 0⟩ [] "Acme" ⟨23, 5, 2025, 14, 30, 15⟩
        1700000000000 "APP_001" "Main" "boom"
      = .ok (⟨"log-2025-jun.txt", false, 1700000000000⟩, [],
          [Diag.warnNotInitialized], true) := by
  rfl

/-- C4 amended: while the facade is uninitialized, every log call writes
nothing and emits a local warning; `info`/`warn`/`debug` are complete no-ops,
but an `error` call still runs the notification path: it attempts a
notification exactly when SMTP is enabled, the gate permits, and the channel
is ready, updating the throttle state accordingly. -/
theorem C4_uninitialized_amended (beh : FsBehavior) (env : NotifyEnv) (sendOk : Bool)
    (st : LogState) (fsys : FsState) (clientName : String) (date : JSDate)
    (now : Int) (level code module text : String)
    (h : st.initialized = false) :
    FileService.log beh st fsys clientName date level code module text
      = .ok (fsys, [Diag.warnNotInitialized]) ∧
    FileService.error beh env sendOk st fsys clientName date now code module text
      = .ok
          ({ st with lastEmailSent := (FileService.errorNotify env st.lastEmailSent now).lastEmailSent },
           fsys,
           Diag.warnNotInitialized ::
             (if (FileService.errorNotify env st.lastEmailSent now).attempted then
                (if sendOk then [] else [Diag.errorSendFail])
              else []),
           (FileService.errorNotify env st.lastEmailSent now).attempted) ∧
    (FileService.errorNotify env st.lastEmailSent now).attempted
      = (env.smtpEnabled && FileService.shouldAttempt env.throttle st.lastEmailSent now
          && env.mailerReady) := by
  refine ⟨?_, ?_, errorNotify_attempted env st.lastEmailSent now⟩
  · rw [FileService.log_spec]
    simp [h]
  · rw [FileService.error_eq]
    simp [h]

/-- C4 amended witness: an uninitialized writer, SMTP enabled, mailer ready,
window elapsed. -/
theorem C4_uninitialized_amended_witness :
    ((⟨"log-2025-jun.txt", false, 0⟩ : LogState).initialized = false) ∧
    (FileService.log behAllOk ⟨"log-2025-jun.txt", false, 0⟩ [] "Acme"
        ⟨23, 5, 2025, 14, 30, 15⟩ "ERROR" "APP_001" "Main" "boom"
      = .ok ([], [Diag.warnNotInitialized])) :=
  ⟨rfl,
    (C4_uninitialized_amended behAllOk ⟨true, true, 60000⟩ true
      ⟨"log-2025-jun.txt", false, 0⟩ [] "Acme" ⟨23, 5, 2025, 14, 30, 15⟩
      1700000000000 "ERROR" "APP_001" "Main" "boom" rfl).1⟩

/-- C9: with console echo enabled, an initialized writer and succeeding
appends, a log call emits to the console exactly the string it appends to the
active file — the same `logLine` value. -/
theorem C9_console_echo (beh : DailyBehavior) (clientName : String)
    (maxFilecount : Nat) (st : DailyState) (fsys : DirState) (now : JSDate)
    (nowMs : Int) (level code module text : String)
    (hinit : st.initialized = true) (happ : ∀ p, beh.appendOk p = true) :
    FileServiceDaily.log beh clientName maxFilecount true st fsys now nowMs
        level code module text
      = ((FileServiceDaily.checkRotation beh clientName maxFilecount st fsys now nowMs).1,
         dirAppend
           (FileServiceDaily.checkRotation beh clientName maxFilecount st fsys now nowMs).2.1
           (FileServiceDaily.checkRotation beh clientName maxFilecount st fsys now nowMs).1.filename
           (logLine clientName now level code module text) nowMs,
         (FileServiceDaily.checkRotation beh clientName maxFilecount st fsys now nowMs).2.2,
         [logLine clientName now level code module text]) := by
  unfold FileServiceDaily.log
  simp [hinit, appendDir, happ]

/-- C9 witness: a same-day call on an initialized writer with every append
succeeding. -/
theorem C9_console_echo_witness :
    ((⟨"log-2025-06-23.txt", true, 23, 0⟩ : DailyState).initialized = true) ∧
    (∀ p, dailyBehAllOk.appendOk p = true) ∧
    FileServiceDaily.log dailyBehAllOk "Acme" 30 true
        ⟨"log-2025-06-23.txt", true, 23, 0⟩ [] ⟨23, 5, 2025, 14, 30, 15⟩
        1700000000000 "INFO" "APP_001" "Main" "Started"
      = ((FileServiceDaily.checkRotation dailyBehAllOk "Acme" 30
            ⟨"log-2025-06-23.txt", true, 23, 0⟩ [] ⟨23, 5, 2025, 14, 30, 15⟩
            1700000000000).1,
         dirAppend
           (FileServiceDaily.checkRotation dailyBehAllOk "Acme" 30
             ⟨"log-2025-06-23.txt", true, 23, 0⟩ [] ⟨23, 5, 2025, 14, 30, 15⟩
             1700000000000).2.1
           (FileServiceDaily.checkRotation dailyBehAllOk "Acme" 30
             ⟨"log-2025-06-23.txt", true, 23, 0⟩ [] ⟨23, 5, 2025, 14, 30, 15⟩
             1700000000000).1.filename
           (logLine "Acme" ⟨23, 5, 2025, 14, 30, 15⟩ "INFO" "APP_001" "Main" "Started")
           1700000000000,
         (FileServiceDaily.checkRotation dailyBehAllOk "Acme" 30
           ⟨"log-2025-06-23.txt", true, 23, 0⟩ [] ⟨23, 5, 2025, 14, 30, 15⟩
           1700000000000).2.2,
         [logLine "Acme" ⟨23, 5, 2025, 14, 30, 15⟩ "INFO" "APP_001" "Main" "Started"]) :=
  ⟨rfl, fun _ => rfl,
    C9_console_echo dailyBehAllOk "Acme" 30 ⟨"log-2025-06-23.txt", true, 23, 0⟩ []
      ⟨23, 5, 2025, 14, 30, 15⟩ 1700000000000 "INFO" "APP_001" "Main" "Started"
      rfl (fun _ => rfl)⟩

/-- C3: the code at the failing input. The writer opened
`log-2025-01-05.txt` on 2025-01-05 (`_currentDay = 5`); on 2025-02-05
(month index 1) the rotation check compares only the day-of-month (5 = 5),
keeps the January state and file set unchanged, and the subsequent write
appends the event line to `log-2025-01-05.txt` although the current period's
file is `log-2025-02-05.txt` — contradicting the invariant that the writer
never appends to a file of another period. -/
theorem C3_rotation_check_failing_input :
    FileServiceDaily.checkRotation dailyBehAllOk "Acme" 30
        ⟨"log-2025-01-05.txt", true, 5, 0⟩ [⟨"log-2025-01-05.txt", "", 0⟩]
        ⟨5, 1, 2025, 10, 0, 0⟩ 1738750000000
      = (⟨"log-2025-01-05.txt", true, 5, 0⟩, [⟨"log-2025-01-05.txt", "", 0⟩], []) ∧
    FileServiceDaily.formatFilename ⟨5, 1, 2025, 10, 0, 0⟩ = "log-2025-02-05.txt" ∧
    "log-2025-02-05.txt" ≠ (⟨"log-2025-01-05.txt", true, 5, 0⟩ : DailyState).filename ∧
    (FileServiceDaily.log dailyBehAllOk "Acme" 30 false
        ⟨"log-2025-01-05.txt", true, 5, 0⟩ [⟨"log-2025-01-05.txt", "", 0⟩]
        ⟨5, 1, 2025, 10, 0, 0⟩ 1738750000000 "INFO" "APP_001" "Main" "boom").2.1
      = dirAppend [⟨"log-2025-01-05.txt", "", 0⟩] "log-2025-01-05.txt"
          (logLine "Acme" ⟨5, 1, 2025, 10, 0, 0⟩ "INFO" "APP_001" "Main" "boom")
          1738750000000 := by
  refine ⟨rfl, rfl, by decide, rfl⟩

theorem mergeSort_fileLe_sorted (l : List LogFile) :
    List.Pairwise (fun a b => fileLe a b = true) (l.mergeSort fileLe) :=
  List.sorted_mergeSort
    (fun a b c hab hbc => by simp only [fileLe, decide_eq_true_eq] at *; omega)
    (fun a b => by simp only [fileLe, Bool.or_eq_true, decide_eq_true_eq]; omega) l

theorem rotateLogFiles_eq (maxFilecount : Nat) (unlinkOk : LogFile → Bool)
    (files : List LogFile)
    (hfilter : (files.filter fun f => strEndsWith (strToLower f.name) ".txt") = files) :
    FileService.rotateLogFiles maxFilecount true unlinkOk files
      = if (files.mergeSort fileLe).length > maxFilecount then
          files.filter
            (fun f => !(decide (f ∈ (files.mergeSort fileLe).drop maxFilecount) && unlinkOk f))
        else files := by
  have h0 : FileService.rotateLogFiles maxFilecount true unlinkOk files
      = if ((files.filter fun f => strEndsWith (strToLower f.name) ".txt").mergeSort
            fileLe).length > maxFilecount then
          files.filter
            (fun f => !(decide (f ∈ ((files.filter fun f =>
                strEndsWith (strToLower f.name) ".txt").mergeSort fileLe).drop maxFilecount)
              && unlinkOk f))
        else files := rfl
  rw [h0, hfilter]

/-- C5: with retention limit `N` and `N + k` files matching the filter (any
name whose lowercasing ends in `.txt`, which subsumes the rotation-file
naming pattern) with pairwise-distinct modification times, one retention pass
leaves exactly the `N` newest files (every deleted file is strictly older
than every survivor), and membership in the result for an arbitrary per-file
deletion oracle shows each deletion is attempted independently: a file is
removed iff it is in the eviction slice and its own unlink succeeded,
regardless of the other deletions. -/
theorem C5_retention (maxFilecount k : Nat) (files : List LogFile)
    (htxt : ∀ f ∈ files, strEndsWith (strToLower f.name) ".txt" = true)
    (hmt : (files.map LogFile.mtime).Nodup)
    (hlen : files.length = maxFilecount + k) :
    (FileService.rotateLogFiles maxFilecount true (fun _ => true) files).length
      = maxFilecount ∧
    (∀ f ∈ files, f ∉ FileService.rotateLogFiles maxFilecount true (fun _ => true) files →
      ∀ g ∈ FileService.rotateLogFiles maxFilecount true (fun _ => true) files,
        f.mtime < g.mtime) ∧
    (∀ unlinkOk : LogFile → Bool, ∀ f : LogFile,
      f ∈ FileService.rotateLogFiles maxFilecount true unlinkOk files ↔
        f ∈ files ∧
          ¬(f ∈ (((files.filter fun x => strEndsWith (strToLower x.name) ".txt").mergeSort
              fileLe).drop maxFilecount) ∧ unlinkOk f = true)) := by
  have hfilter : (files.filter fun f => strEndsWith (strToLower f.name) ".txt") = files :=
    List.filter_eq_self.mpr htxt
  set L := files.mergeSort fileLe with hLdef
  have hperm : L.Perm files := List.mergeSort_perm files fileLe
  have hlenL : L.length = maxFilecount + k := by
    rw [hLdef, List.length_mergeSort, hlen]
  have hsorted : List.Pairwise (fun a b => fileLe a b = true) L :=
    mergeSort_fileLe_sorted files
  have hnf : files.Nodup := List.Nodup.of_map LogFile.mtime hmt
  have hnL : L.Nodup := hperm.nodup_iff.mpr hnf
  have hsplit : L.take maxFilecount ++ L.drop maxFilecount = L :=
    List.take_append_drop _ _
  have hdisj : (L.take maxFilecount).Disjoint (L.drop maxFilecount) :=
    (List.nodup_append.mp (by rw [hsplit]; exact hnL)).2.2
  have hTD : ∀ a ∈ L.take maxFilecount, ∀ b ∈ L.drop maxFilecount, fileLe a b = true :=
    (List.pairwise_append.mp (by rw [hsplit]; exact hsorted)).2.2
  have hmem : ∀ (unlinkOk : LogFile → Bool) (f : LogFile),
      f ∈ FileService.rotateLogFiles maxFilecount true unlinkOk files ↔
        f ∈ files ∧ ¬(f ∈ L.drop maxFilecount ∧ unlinkOk f = true) := by
    intro unlinkOk f
    rw [rotateLogFiles_eq maxFilecount unlinkOk files hfilter, ← hLdef]
    by_cases hk : L.length > maxFilecount
    · rw [if_pos hk, List.mem_filter]
      simp only [Bool.not_eq_eq_eq_not, Bool.not_true, Bool.and_eq_false_iff,
        decide_eq_false_iff_not, Bool.not_eq_true]
      constructor
      · rintro ⟨h1, h2⟩
        refine ⟨h1, ?_⟩
        rintro ⟨hd, hu⟩
        rcases h2 with h2 | h2
        · exact h2 hd
        · rw [hu] at h2; exact Bool.noConfusion h2
      · rintro ⟨h1, h2⟩
        refine ⟨h1, ?_⟩
        by_cases hd : f ∈ L.drop maxFilecount
        · right
          cases hu : unlinkOk f
          · rfl
          · exact absurd ⟨hd, hu⟩ h2
        · left; exact hd
    · rw [if_neg hk]
      have hD : L.drop maxFilecount = [] := List.drop_eq_nil_of_le (by omega)
      simp [hD]
  have hlen1 : (FileService.rotateLogFiles maxFilecount true
      (fun _ => true) files).length = maxFilecount := by
    rw [rotateLogFiles_eq maxFilecount (fun _ => true) files hfilter, ← hLdef]
    by_cases hk : L.length > maxFilecount
    · rw [if_pos hk]
      have hperm2 : (files.filter
            (fun f => !(decide (f ∈ L.drop maxFilecount) && true))).Perm
          (L.filter (fun f => !(decide (f ∈ L.drop maxFilecount) && true))) :=
        List.Perm.filter _ hperm.symm
      have hfT : (L.take maxFilecount).filter
          (fun f => !(decide (f ∈ L.drop maxFilecount) && true)) = L.take maxFilecount := by
        rw [List.filter_eq_self]
        intro a ha
        have : a ∉ L.drop maxFilecount := fun hd => hdisj ha hd
        simp [this]
      have hfD : (L.drop maxFilecount).filter
          (fun f => !(decide (f ∈ L.drop maxFilecount) && true)) = [] := by
        rw [List.filter_eq_nil_iff]
        intro a ha
        simp [ha]
      have hLf : L.filter (fun f => !(decide (f ∈ L.drop maxFilecount) && true))
          = L.take maxFilecount := by
        have happ := List.filter_append
          (p := fun f => !(decide (f ∈ L.drop maxFilecount) && true))
          (L.take maxFilecount) (L.drop maxFilecount)
        rw [hfT, hfD, List.append_nil] at happ
        rw [← happ, hsplit]
      rw [hperm2.length_eq, hLf, List.length_take]
      omega
    · rw [if_neg hk]
      omega
  refine ⟨hlen1, ?_, ?_⟩
  · intro f hf hfr g hgr
    have hfD : f ∈ L.drop maxFilecount := by
      have hiff := hmem (fun _ => true) f
      by_contra hfd
      exact hfr (hiff.mpr ⟨hf, fun h => hfd h.1⟩)
    have hgmem := (hmem (fun _ => true) g).mp hgr
    have hgD : g ∉ L.drop maxFilecount := fun hd => hgmem.2 ⟨hd, rfl⟩
    have hgL : g ∈ L := hperm.mem_iff.mpr hgmem.1
    have hgT : g ∈ L.take maxFilecount := by
      rcases List.mem_append.mp (by rw [hsplit]; exact hgL) with h | h
      · exact h
      · exact absurd h hgD
    have hle := hTD g hgT f hfD
    have hfL : f ∈ L := hperm.mem_iff.mpr hf
    have hne : f.mtime ≠ g.mtime := by
      intro he
      have : f = g := List.inj_on_of_nodup_map hmt hf hgmem.1 he
      rw [this] at hfD
      exact hgD hfD
    simp only [fileLe, decide_eq_true_eq] at hle
    omega
  · intro unlinkOk f
    rw [hfilter, ← hLdef]
    exact hmem unlinkOk f

/-- C5 witness: retention limit 1 over two files with distinct modification
times; the older `log-2025-05.txt` is evicted and the newer survives. -/
theorem C5_retention_witness :
    (∀ f ∈ ([⟨"log-2025-05.txt", 100⟩, ⟨"log-2025-06.txt", 200⟩] : List LogFile),
      strEndsWith (strToLower f.name) ".txt" = true) ∧
    (([⟨"log-2025-05.txt", 100⟩, ⟨"log-2025-06.txt", 200⟩] : List LogFile).map
      LogFile.mtime).Nodup ∧
    ([⟨"log-2025-05.txt", 100⟩, ⟨"log-2025-06.txt", 200⟩] : List LogFile).length = 1 + 1 ∧
    (FileService.rotateLogFiles 1 true (fun _ => true)
      [⟨"log-2025-05.txt", 100⟩, ⟨"log-2025-06.txt", 200⟩]).length = 1 :=
  ⟨by decide, by decide, by decide,
    (C5_retention 1 1 [⟨"log-2025-05.txt", 100⟩, ⟨"log-2025-06.txt", 200⟩]
      (by decide) (by decide) (by decide)).1⟩
